import Mathlib

/-!
Shallow embedding of the filtering-and-pagination query engine of the
repository (files `src/components/swagger/pagination/pagination.helper.ts`
and the `SearchHelper` in `src/components/dto/search-query.dto.ts`).

JavaScript numbers that flow through the pagination arithmetic are modelled
as rationals, wrapped in `JsNum` to account for `NaN` and in `Option` to
account for `undefined`.  Optional string fields of the filter DTO are
`Option String`; JavaScript truthiness of such a field (`!x`) is
`strTruthy`.  The TypeORM `SelectQueryBuilder` is modelled by the
`QueryBuilder` record accumulating parameterized where-clauses and an
ORDER BY clause; `console.error`/`console.warn` diagnostics of the
predicate compiler are modelled as a log list threaded next to the
builder.
-/

/-- A JavaScript number: either `NaN` or a real numeric value (rational). -/
inductive JsNum where
  | nan : JsNum
  | num : ℚ → JsNum
deriving DecidableEq

/-- JavaScript falsiness of a possibly-undefined number:
`undefined`, `NaN` and `0` are falsy. -/
def jsFalsy : Option JsNum → Bool
  | none => true
  | Option.some JsNum.nan => true
  | Option.some (JsNum.num q) => q == 0

/-- JavaScript `isNaN` on a possibly-undefined number
(`isNaN(undefined)` is `true`). -/
def jsIsNaN : Option JsNum → Bool
  | none => true
  | Option.some JsNum.nan => true
  | Option.some (JsNum.num _) => false

/-- JavaScript comparison `x < 1` on a possibly-undefined number:
comparisons against `NaN`/`undefined` are `false`. -/
def jsLtOne : Option JsNum → Bool
  | Option.some (JsNum.num q) => q < 1
  | _ => false

/-- The normalized page of `PaginationHelper.getPaginationLimits` before
`Math.max(1, Math.floor(page))`: the source sets `page = 1` when
`!page || isNaN(page) || page < 1`. -/
def normalizePageRaw : Option JsNum → ℚ
  | Option.some (JsNum.num q) => if q < 1 then 1 else q
  | _ => 1

/-- The normalized per-page value of `getPaginationLimits` before the
floor/clamp: `let limit = per_page || defaultPageSize` followed by
`if (!limit || isNaN(limit) || limit < 1) limit = defaultPageSize`. -/
def normalizePerPage (per_page : Option JsNum) (defaultPageSize : ℚ) : ℚ :=
  let limit0 : ℚ :=
    match per_page with
    | Option.some (JsNum.num q) => if q == 0 then defaultPageSize else q
    | _ => defaultPageSize
  if limit0 == 0 ∨ limit0 < 1 then defaultPageSize else limit0

/-- `PaginationHelper.getPaginationLimits` (pagination.helper.ts, lines
51-79).  The `defaultPageSize`/`maxPageSize` arguments are the values the
source reads from the config service (falling back to 10 resp. 100).
Returns `(limit, offset, page)`. -/
def getPaginationLimits (page per_page : Option JsNum)
    (defaultPageSize maxPageSize : ℚ) : ℚ × ℚ × ℚ :=
  let pageN : ℚ := max 1 ((⌊normalizePageRaw page⌋ : ℤ) : ℚ)
  let limit1 : ℚ := min ((⌊normalizePerPage per_page defaultPageSize⌋ : ℤ) : ℚ) maxPageSize
  let limit : ℚ := max 1 limit1
  let offset : ℚ := (pageN - 1) * limit
  (limit, offset, pageN)

/-- Result record of `PaginationHelper.calculateMeta`. -/
structure CalculatedMeta where
  totalPages : ℤ
  currentPage : ℚ
  perPage : ℚ
  from_ : ℚ
  to_ : ℚ
deriving DecidableEq

/-- `PaginationHelper.calculateMeta` (pagination.helper.ts, lines 167-190):
`totalPages = Math.ceil(total / limit)`,
`currentPage = Math.max(1, Math.min(page, totalPages))`,
`from = total > 0 ? (currentPage - 1) * limit + 1 : 0`,
`to = Math.min(currentPage * limit, total)`. -/
def calculateMeta (total page limit : ℚ) : CalculatedMeta :=
  let totalPages : ℤ := ⌈total / limit⌉
  let currentPage : ℚ := max 1 (min page (totalPages : ℚ))
  let from_ : ℚ := if 0 < total then (currentPage - 1) * limit + 1 else 0
  let to_ : ℚ := min (currentPage * limit) total
  { totalPages := totalPages, currentPage := currentPage, perPage := limit,
    from_ := from_, to_ := to_ }

/-- The `meta` object returned by `PaginationHelper.paginateWithTypeORM`. -/
structure TypeOrmMeta where
  current_page : ℚ
  last_page : ℤ
  per_page : ℚ
  total : ℚ
  from_ : ℚ
  to_ : ℚ
deriving DecidableEq

/-- `PaginationHelper.paginateWithTypeORM` (pagination.helper.ts, lines
195-224).  The database round trip `queryBuilder.skip(offset).take(limit)
.getManyAndCount()` is modelled by the collaborator function `db`, applied
to the computed `(offset, limit)` and returning `(data, total)`. -/
def paginateWithTypeORM {α : Type} (page per_page : Option JsNum)
    (defaultPageSize maxPageSize : ℚ) (db : ℚ → ℚ → List α × ℚ) :
    List α × TypeOrmMeta :=
  let r := getPaginationLimits page per_page defaultPageSize maxPageSize
  let limit := r.1
  let offset := r.2.1
  let pageN := r.2.2
  let dt := db offset limit
  let total := dt.2
  let totalPages : ℤ := ⌈total / limit⌉
  let from_ : ℚ := if 0 < total then offset + 1 else 0
  let to_ : ℚ := min (offset + limit) total
  (dt.1,
    { current_page := pageN, last_page := totalPages, per_page := limit,
      total := total, from_ := from_, to_ := to_ })

/-- `PaginationFilterDto` (pagination.dto.ts).  `filter_type` is kept as a
runtime string, as in JavaScript, where the `FilterType` enum members are
string constants such as `"equal"`; optional fields are `Option String`. -/
structure PaginationFilterDto where
  search_by : String
  filter_type : String
  search_query : Option String
  start_value : Option String
  end_value : Option String
  values_list : Option String
deriving DecidableEq

/-- JavaScript truthiness of an optional string field: `undefined` and the
empty string are falsy. -/
def strTruthy : Option String → Bool
  | none => false
  | Option.some s => !(s == "")

/-- JavaScript template interpolation of a possibly-undefined string:
an undefined value prints as the text `undefined`. -/
def jsTemplate : Option String → String
  | none => "undefined"
  | Option.some s => s

/-- JavaScript `x || d` for an optional string `x` and default `d`. -/
def jsOrElse : Option String → String → String
  | none, d => d
  | Option.some s, d => if s == "" then d else s

/-- The filter types of the first `switch` group of
`PaginationHelper.validateFilters` (lines 99-119): those requiring
`search_query`. -/
def singleValueTypes : List String :=
  ["equal", "not_equal", "like", "ilike", "not_like", "not_ilike",
   "greater_than", "greater_equal", "less_than", "less_equal",
   "starts_with", "ends_with", "contains", "icontains",
   "regexp", "iregexp", "json_contains", "json_contained",
   "json_extract", "json_extract_text", "array_contains"]

/-- The filter types requiring `start_value` and `end_value`
(validateFilters, lines 128-129). -/
def rangeTypes : List String := ["between", "not_between"]

/-- The filter types requiring `values_list` (validateFilters, lines
138-140). -/
def listValueTypes : List String := ["in", "not_in", "array_overlap"]

/-- The filter types requiring no value (validateFilters, lines 149-150). -/
def nullCheckTypes : List String := ["is_null", "is_not_null"]

/-- The field-membership errors `validateFilters` pushes for one filter
(lines 91-95): one positional message when `search_by` is not an allowed
field. -/
def fieldErrors (index : Nat) (filter : PaginationFilterDto)
    (allowedFields : List String) : List String :=
  if allowedFields.contains filter.search_by then []
  else ["Filter " ++ toString (index + 1) ++ ": \x27" ++ filter.search_by ++
        "\x27 is not an allowed search field"]

/-- The arity errors the `switch` of `validateFilters` pushes for one
filter (lines 97-158).  The `case` fall-through groups of the source
become membership tests in the corresponding type lists; the `default`
branch is the final case. -/
def arityErrors (index : Nat) (filter : PaginationFilterDto) : List String :=
  if singleValueTypes.contains filter.filter_type then
    if strTruthy filter.search_query then []
    else ["Filter " ++ toString (index + 1) ++
          ": \x27search_query\x27 is required for " ++ filter.filter_type ++ " filter"]
  else if rangeTypes.contains filter.filter_type then
    if strTruthy filter.start_value && strTruthy filter.end_value then []
    else ["Filter " ++ toString (index + 1) ++
          ": \x27start_value\x27 and \x27end_value\x27 are required for " ++
          filter.filter_type ++ " filter"]
  else if listValueTypes.contains filter.filter_type then
    if strTruthy filter.values_list then []
    else ["Filter " ++ toString (index + 1) ++
          ": \x27values_list\x27 is required for " ++ filter.filter_type ++ " filter"]
  else if nullCheckTypes.contains filter.filter_type then []
  else ["Filter " ++ toString (index + 1) ++ ": Unknown filter type \x27" ++
        filter.filter_type ++ "\x27"]

/-- All errors `validateFilters` pushes for the filter at (0-based)
position `index`. -/
def validateFilterAt (index : Nat) (filter : PaginationFilterDto)
    (allowedFields : List String) : List String :=
  fieldErrors index filter allowedFields ++ arityErrors index filter

/-- The `filters.forEach((filter, index) => ...)` loop of
`validateFilters`, starting at index `i`. -/
def validateFiltersFrom (allowedFields : List String) :
    Nat → List PaginationFilterDto → List String
  | _, [] => []
  | i, f :: rest =>
      validateFilterAt i f allowedFields ++ validateFiltersFrom allowedFields (i + 1) rest

/-- `PaginationHelper.validateFilters` (pagination.helper.ts, lines
84-162): returns the accumulated list of error messages. -/
def validateFilters (filters : List PaginationFilterDto)
    (allowedFields : List String) : List String :=
  validateFiltersFrom allowedFields 0 filters

/-- Effect-visible embedding of `validateFilters`: each loop step runs in
`Except String` (no statement of the source body throws, and neither input
array is the receiver of any mutating call), and the call returns the
error list together with the post-call contents of the two input arrays. -/
def validateFiltersFromE (allowedFields : List String) :
    Nat → List String → List PaginationFilterDto → Except String (List String)
  | _, errors, [] => Except.ok errors
  | i, errors, f :: rest =>
      (Except.ok (errors ++ validateFilterAt i f allowedFields)).bind
        (fun e => validateFiltersFromE allowedFields (i + 1) e rest)

/-- The caller-observable outcome of `validateFilters`: either an exception
or the returned error list paired with the final contents of the `filters`
and `allowedFields` arrays. -/
def validateFiltersE (filters : List PaginationFilterDto)
    (allowedFields : List String) :
    Except String (List String × List PaginationFilterDto × List String) :=
  (validateFiltersFromE allowedFields 0 [] filters).map
    (fun errs => (errs, filters, allowedFields))

/-- A value bound to a named query parameter: a string, an undefined
value interpolated as-is, or an ordered list of strings (for the
`IN (:...)`-style bindings). -/
inductive BindValue where
  | str : String → BindValue
  | undef : BindValue
  | strList : List String → BindValue
deriving DecidableEq

/-- Binding of a possibly-undefined string value, as TypeORM receives it
from `filter.search_query` etc. -/
def bindOpt : Option String → BindValue
  | none => BindValue.undef
  | Option.some s => BindValue.str s

/-- Model of the TypeORM `SelectQueryBuilder` state the engine touches:
the accumulated AND-conjoined where clauses (condition text plus named
parameter bindings) and the ORDER BY clause. -/
structure QueryBuilder where
  wheres : List (String × List (String × BindValue))
  order_by : Option (String × String)
deriving DecidableEq

/-- `queryBuilder.andWhere(condition, params)`: appends one conjunct. -/
def QueryBuilder.andWhere (qb : QueryBuilder) (cond : String)
    (params : List (String × BindValue)) : QueryBuilder :=
  { qb with wheres := qb.wheres ++ [(cond, params)] }

/-- A query builder with no where clauses and no ORDER BY. -/
def emptyQB : QueryBuilder := { wheres := [], order_by := none }

/-- `QueryRequestBodyDto` (search-query.dto.ts). -/
structure QueryRequestBodyDto where
  search : Option String
  sort_by : Option String
  sort_order : Option String
  filters : Option (List PaginationFilterDto)
deriving DecidableEq

/-- Helper for JavaScript `String.prototype.trim`: drop leading
whitespace from a character list. -/
def jsTrimLeft : List Char → List Char
  | [] => []
  | c :: rest => if c.isWhitespace then jsTrimLeft rest else c :: rest

/-- JavaScript `s.trim()`: strip whitespace from both ends. -/
def jsTrim (s : String) : String :=
  String.mk (jsTrimLeft (List.reverse (jsTrimLeft (List.reverse s.data))))

/-- JavaScript `s.split(',')` (non-empty separator): the maximal chunks
between commas, empty chunks included. -/
def splitCommaChars : List Char → List (List Char)
  | [] => [[]]
  | c :: rest =>
      match splitCommaChars rest with
      | [] => [[]]
      | cur :: done => if c = ',' then [] :: cur :: done else (c :: cur) :: done

/-- JavaScript `s.toUpperCase()` (ASCII letters, which is all the engine
compares). -/
def jsToUpper (s : String) : String := String.mk (s.data.map Char.toUpper)

/-- The field-name guard of `SearchHelper.buildSearchQuery` (lines 38-46)
and, with the sort field in place of `search_by`, of `buildSortQuery`
(lines 256-263): truthy, non-blank after trim, not one of the sentinel
tokens, and a member of the allow-list. -/
def validFieldName (s : String) (allowed : List String) : Bool :=
  !(s == "") && !(jsTrim s == "") && !(s == "NaN") && !(s == "undefined") &&
    !(s == "null") && allowed.contains s

/-- The split-and-trim applied to `values_list` by the `IN`, `NOT_IN` and
`ARRAY_OVERLAP` branches: `values_list.split(',').map(val => val.trim())`. -/
def jsSplitTrim (s : String) : List String :=
  (splitCommaChars s.data).map (fun cs => jsTrim (String.mk cs))

/-- One iteration of the `query.filters.forEach((filter, index) => ...)`
loop of `SearchHelper.buildSearchQuery` (search-query.dto.ts, lines
36-239).  `parseJson` models `JSON.parse` composed with `JSON.stringify`:
`Option.some` is the re-serialized document, `none` a parse failure (the
`catch` path).  The accumulator pairs the query builder with the list of
`console.error`/`console.warn` diagnostics emitted so far. -/
def applyFilter (parseJson : String → Option String) (aliasName : String)
    (allowedFields : List String) (acc : QueryBuilder × List String)
    (index : Nat) (filter : PaginationFilterDto) : QueryBuilder × List String :=
  if validFieldName filter.search_by allowedFields then
    let fieldName := aliasName ++ "." ++ filter.search_by
    let paramName := "param_" ++ toString index
    let q := acc.1
    let logs := acc.2
    match filter.filter_type with
    | "equal" =>
        (q.andWhere (fieldName ++ " = :" ++ paramName)
          [(paramName, bindOpt filter.search_query)], logs)
    | "not_equal" =>
        (q.andWhere (fieldName ++ " != :" ++ paramName)
          [(paramName, bindOpt filter.search_query)], logs)
    | "like" =>
        (q.andWhere (fieldName ++ " LIKE :" ++ paramName)
          [(paramName, BindValue.str ("%" ++ jsTemplate filter.search_query ++ "%"))], logs)
    | "ilike" =>
        (q.andWhere ("LOWER(" ++ fieldName ++ ") LIKE LOWER(:" ++ paramName ++ ")")
          [(paramName, BindValue.str ("%" ++ jsTemplate filter.search_query ++ "%"))], logs)
    | "not_like" =>
        (q.andWhere (fieldName ++ " NOT LIKE :" ++ paramName)
          [(paramName, BindValue.str ("%" ++ jsTemplate filter.search_query ++ "%"))], logs)
    | "not_ilike" =>
        (q.andWhere ("LOWER(" ++ fieldName ++ ") NOT LIKE LOWER(:" ++ paramName ++ ")")
          [(paramName, BindValue.str ("%" ++ jsTemplate filter.search_query ++ "%"))], logs)
    | "starts_with" =>
        (q.andWhere (fieldName ++ " LIKE :" ++ paramName)
          [(paramName, BindValue.str (jsTemplate filter.search_query ++ "%"))], logs)
    | "ends_with" =>
        (q.andWhere (fieldName ++ " LIKE :" ++ paramName)
          [(paramName, BindValue.str ("%" ++ jsTemplate filter.search_query))], logs)
    | "contains" =>
        (q.andWhere (fieldName ++ " LIKE :" ++ paramName)
          [(paramName, BindValue.str ("%" ++ jsTemplate filter.search_query ++ "%"))], logs)
    | "icontains" =>
        (q.andWhere ("LOWER(" ++ fieldName ++ ") LIKE LOWER(:" ++ paramName ++ ")")
          [(paramName, BindValue.str ("%" ++ jsTemplate filter.search_query ++ "%"))], logs)
    | "greater_than" =>
        (q.andWhere (fieldName ++ " > :" ++ paramName)
          [(paramName, bindOpt filter.search_query)], logs)
    | "greater_equal" =>
        (q.andWhere (fieldName ++ " >= :" ++ paramName)
          [(paramName, bindOpt filter.search_query)], logs)
    | "less_than" =>
        (q.andWhere (fieldName ++ " < :" ++ paramName)
          [(paramName, bindOpt filter.search_query)], logs)
    | "less_equal" =>
        (q.andWhere (fieldName ++ " <= :" ++ paramName)
          [(paramName, bindOpt filter.search_query)], logs)
    | "between" =>
        if strTruthy filter.start_value && strTruthy filter.end_value then
          (q.andWhere (fieldName ++ " BETWEEN :start_" ++ paramName ++ " AND :end_" ++ paramName)
            [("start_" ++ paramName, bindOpt filter.start_value),
             ("end_" ++ paramName, bindOpt filter.end_value)], logs)
        else acc
    | "not_between" =>
        if strTruthy filter.start_value && strTruthy filter.end_value then
          (q.andWhere (fieldName ++ " NOT BETWEEN :start_" ++ paramName ++ " AND :end_" ++ paramName)
            [("start_" ++ paramName, bindOpt filter.start_value),
             ("end_" ++ paramName, bindOpt filter.end_value)], logs)
        else acc
    | "in" =>
        if strTruthy filter.values_list then
          (q.andWhere (fieldName ++ " IN (:..." ++ paramName ++ ")")
            [(paramName, BindValue.strList (jsSplitTrim (jsTemplate filter.values_list)))], logs)
        else acc
    | "not_in" =>
        if strTruthy filter.values_list then
          (q.andWhere (fieldName ++ " NOT IN (:..." ++ paramName ++ ")")
            [(paramName, BindValue.strList (jsSplitTrim (jsTemplate filter.values_list)))], logs)
        else acc
    | "is_null" =>
        (q.andWhere (fieldName ++ " IS NULL") [], logs)
    | "is_not_null" =>
        (q.andWhere (fieldName ++ " IS NOT NULL") [], logs)
    | "regexp" =>
        (q.andWhere (fieldName ++ " REGEXP :" ++ paramName)
          [(paramName, bindOpt filter.search_query)], logs)
    | "iregexp" =>
        (q.andWhere ("LOWER(" ++ fieldName ++ ") REGEXP LOWER(:" ++ paramName ++ ")")
          [(paramName, bindOpt filter.search_query)], logs)
    | "json_contains" =>
        match parseJson (jsOrElse filter.search_query ("\x7b\x7d")) with
        | Option.some j =>
            (q.andWhere (fieldName ++ " @> :" ++ paramName)
              [(paramName, BindValue.str j)], logs)
        | none =>
            (q, logs ++ ["Invalid JSON in filter: " ++ jsTemplate filter.search_query])
    | "json_contained" =>
        match parseJson (jsOrElse filter.search_query ("\x7b\x7d")) with
        | Option.some j =>
            (q.andWhere (fieldName ++ " <@ :" ++ paramName)
              [(paramName, BindValue.str j)], logs)
        | none =>
            (q, logs ++ ["Invalid JSON in filter: " ++ jsTemplate filter.search_query])
    | "array_contains" =>
        if strTruthy filter.search_query then
          (q.andWhere (fieldName ++ " @> ARRAY[:" ++ paramName ++ "]")
            [(paramName, bindOpt filter.search_query)], logs)
        else acc
    | "array_overlap" =>
        if strTruthy filter.values_list then
          (q.andWhere (fieldName ++ " && ARRAY[:..." ++ paramName ++ "]")
            [(paramName, BindValue.strList (jsSplitTrim (jsTemplate filter.values_list)))], logs)
        else acc
    | "json_extract" =>
        (q, logs ++ ["JSON path extraction (" ++ filter.filter_type ++
                     ") not fully implemented. Needs database-specific handling."])
    | "json_extract_text" =>
        (q, logs ++ ["JSON path extraction (" ++ filter.filter_type ++
                     ") not fully implemented. Needs database-specific handling."])
    | _ => acc
  else acc

/-- The `forEach` loop of `buildSearchQuery`, starting at index `i`. -/
def buildSearchQueryFrom (parseJson : String → Option String) (aliasName : String)
    (allowedFields : List String) :
    Nat → QueryBuilder × List String → List PaginationFilterDto →
    QueryBuilder × List String
  | _, acc, [] => acc
  | i, acc, f :: rest =>
      buildSearchQueryFrom parseJson aliasName allowedFields (i + 1)
        (applyFilter parseJson aliasName allowedFields acc i f) rest

/-- `SearchHelper.buildSearchQuery` (search-query.dto.ts, lines 29-243):
folds every filter of the request through `applyFilter`; when the request
carries no filters array, the builder is returned untouched.  The second
component collects the console diagnostics emitted during compilation. -/
def buildSearchQuery (parseJson : String → Option String) (qb : QueryBuilder)
    (query : QueryRequestBodyDto) (allowedFields : List String)
    (aliasName : String) : QueryBuilder × List String :=
  match query.filters with
  | Option.some fs => buildSearchQueryFrom parseJson aliasName allowedFields 0 (qb, []) fs
  | none => (qb, [])

/-- The sort orders accepted verbatim by `buildSortQuery` (line 266). -/
def validSortOrders : List String := ["asc", "desc", "ASC", "DESC"]

/-- The sort-order normalization of `buildSortQuery` (lines 266-271):
start from `ASC` and upper-case the requested order only when it is truthy
and a verbatim member of `validSortOrders`. -/
def resolveSortOrder : Option String → String
  | none => "ASC"
  | Option.some o =>
      if !(o == "") && validSortOrders.contains o then jsToUpper o else "ASC"

/-- `SearchHelper.buildSortQuery` (search-query.dto.ts, lines 245-283):
order by the requested field when it passes the field guard, otherwise
fall back to `created_at` descending. -/
def buildSortQuery (qb : QueryBuilder) (query : QueryRequestBodyDto)
    (allowedSortFields : List String) (aliasName : String) : QueryBuilder :=
  match query.sort_by with
  | Option.some s =>
      if validFieldName s allowedSortFields then
        { qb with order_by := Option.some (aliasName ++ "." ++ s, resolveSortOrder query.sort_order) }
      else
        { qb with order_by := Option.some (aliasName ++ ".created_at", "DESC") }
  | none => { qb with order_by := Option.some (aliasName ++ ".created_at", "DESC") }

/-- C1 counterexample: `calculateMeta(total=0, page=1, limit=10)` returns
`totalPages = Math.ceil(0/10) = 0`, not the claimed
`last_page = max(1, ceil(total/limit)) = 1`: the source applies no
minimum-1 floor to `totalPages`. -/
theorem calculateMeta_zero_total_counter :
    (calculateMeta 0 1 10).totalPages = 0 ∧ (calculateMeta 0 1 10).totalPages ≠ 1 := by
  norm_num [calculateMeta]

/-- C1 (amended): for total ≥ 0, page ≥ 1, limit ≥ 1, `calculateMeta`
returns `last_page = ceil(total/limit)` with no minimum-1 floor; this
agrees with `max(1, ceil(total/limit))` whenever total ≥ 1, and
`calculateMeta(0, 1, 10)` yields `from = 0`, `to = 0` and `last_page = 0`
(not 1). -/
theorem calculateMeta_last_page (total page limit : ℚ)
    (ht : 0 ≤ total) (hp : 1 ≤ page) (hl : 1 ≤ limit) :
    (calculateMeta total page limit).totalPages = ⌈total / limit⌉ ∧
    (1 ≤ total → (calculateMeta total page limit).totalPages = max 1 ⌈total / limit⌉) ∧
    (calculateMeta 0 1 10).from_ = 0 ∧ (calculateMeta 0 1 10).to_ = 0 ∧
    (calculateMeta 0 1 10).totalPages = 0 := by
  refine ⟨rfl, ?_, by norm_num [calculateMeta], by norm_num [calculateMeta],
    by norm_num [calculateMeta]⟩
  intro h1
  have hpos : 0 < total / limit :=
    div_pos (lt_of_lt_of_le one_pos h1) (lt_of_lt_of_le one_pos hl)
  have hceil : 0 < ⌈total / limit⌉ := Int.ceil_pos.mpr hpos
  have e : (calculateMeta total page limit).totalPages = ⌈total / limit⌉ := rfl
  rw [e]
  omega

/-- C1 witness: the amended theorem applied at total = 0, page = 1,
limit = 10. -/
theorem calculateMeta_last_page_witness :
    (calculateMeta 0 1 10).totalPages = ⌈(0 : ℚ) / 10⌉ ∧
    (1 ≤ (0 : ℚ) → (calculateMeta 0 1 10).totalPages = max 1 ⌈(0 : ℚ) / 10⌉) ∧
    (calculateMeta 0 1 10).from_ = 0 ∧ (calculateMeta 0 1 10).to_ = 0 ∧
    (calculateMeta 0 1 10).totalPages = 0 :=
  calculateMeta_last_page 0 1 10 (by norm_num) (by norm_num) (by norm_num)

/-- C4 counterexample: with per_page = 2.7 and maxPageSize = 2.5 the
returned limit is `min(floor(2.7), 2.5) = 2`, not maxPageSize: the claimed
consequence "any per_page greater than maxSize yields limit == maxSize"
fails for a fractional maxSize. -/
theorem getPaginationLimits_fractional_max_counter :
    (5 : ℚ) / 2 < 27 / 10 ∧
    (getPaginationLimits none (Option.some (JsNum.num (27 / 10))) 10 (5 / 2)).1 ≠ 5 / 2 := by
  have hfl : ⌊(27 : ℚ) / 10⌋ = 2 := by
    rw [Int.floor_eq_iff] <;> norm_num
  constructor
  · norm_num
  · norm_num [getPaginationLimits, normalizePerPage, hfl]

/-- C4 (amended): `getPaginationLimits` coerces a non-numeric, absent or
< 1 page to 1 and floors a fractional page; coerces a non-numeric, absent
or < 1 per_page to defaultSize; returns
`limit = clamp(floor(perPage), 1, maxSize)` and `offset = (page-1)*limit`;
and any per_page greater than maxSize yields limit = maxSize provided
maxSize is an integer ≥ 1 (for a fractional maxSize the limit can fall
below it). -/
theorem getPaginationLimits_spec (page per_page : Option JsNum) (ds ms p q : ℚ) :
    ((jsFalsy page || jsIsNaN page || jsLtOne page) = true →
        (getPaginationLimits page per_page ds ms).2.2 = 1) ∧
    (page = Option.some (JsNum.num p) → 1 ≤ p →
        (getPaginationLimits page per_page ds ms).2.2 = ((⌊p⌋ : ℤ) : ℚ)) ∧
    ((jsFalsy per_page || jsLtOne per_page) = true →
        (getPaginationLimits page per_page ds ms).1 = max 1 (min ((⌊ds⌋ : ℤ) : ℚ) ms)) ∧
    (getPaginationLimits page per_page ds ms).1
        = max 1 (min ((⌊normalizePerPage per_page ds⌋ : ℤ) : ℚ) ms) ∧
    (per_page = Option.some (JsNum.num q) → ms < q → 1 ≤ ms → ((⌊ms⌋ : ℤ) : ℚ) = ms →
        (getPaginationLimits page per_page ds ms).1 = ms) ∧
    (getPaginationLimits page per_page ds ms).2.1
        = ((getPaginationLimits page per_page ds ms).2.2 - 1)
            * (getPaginationLimits page per_page ds ms).1 := by
  refine ⟨?_, ?_, ?_, rfl, ?_, rfl⟩
  · intro h
    have hraw : normalizePageRaw page = 1 := by
      match page with
      | none => rfl
      | Option.some JsNum.nan => rfl
      | Option.some (JsNum.num r) =>
          simp only [jsFalsy, jsIsNaN, jsLtOne, Bool.or_eq_true, beq_iff_eq,
            decide_eq_true_eq] at h
          have hr : r < 1 := by
            rcases h with (h | h) | h
            · rw [h]; norm_num
            · exact absurd h (by simp)
            · exact h
          simp [normalizePageRaw, hr]
    show max 1 ((⌊normalizePageRaw page⌋ : ℤ) : ℚ) = 1
    rw [hraw]
    norm_num
  · intro hp h1
    have hraw : normalizePageRaw page = p := by
      rw [hp]
      simp [normalizePageRaw, not_lt.mpr h1]
    show max 1 ((⌊normalizePageRaw page⌋ : ℤ) : ℚ) = ((⌊p⌋ : ℤ) : ℚ)
    rw [hraw]
    have : (1 : ℤ) ≤ ⌊p⌋ := by
      rw [Int.le_floor]; exact_mod_cast h1
    have : (1 : ℚ) ≤ ((⌊p⌋ : ℤ) : ℚ) := by exact_mod_cast this
    exact max_eq_right this
  · intro h
    have hnorm : normalizePerPage per_page ds = ds := by
      match per_page with
      | none => simp [normalizePerPage]
      | Option.some JsNum.nan => simp [normalizePerPage]
      | Option.some (JsNum.num r) =>
          simp only [jsFalsy, jsLtOne, Bool.or_eq_true, beq_iff_eq,
            decide_eq_true_eq] at h
          rcases h with h | h
          · simp only [normalizePerPage, h]
            norm_num
          · by_cases hz : r = (0 : ℚ)
            · simp only [normalizePerPage, hz]
              norm_num
            · simp only [normalizePerPage, beq_iff_eq, hz, if_false, if_neg hz]
              simp [h]
    show max 1 (min ((⌊normalizePerPage per_page ds⌋ : ℤ) : ℚ) ms)
        = max 1 (min ((⌊ds⌋ : ℤ) : ℚ) ms)
    rw [hnorm]
  · intro hq hmq hm1 hmz
    have h1q : (1 : ℚ) < q := lt_of_le_of_lt hm1 hmq
    have hnorm : normalizePerPage per_page ds = q := by
      rw [hq]
      have hz : ¬ q = (0 : ℚ) := by positivity
      have hlt : ¬ q < 1 := not_lt.mpr (le_of_lt h1q)
      simp [normalizePerPage, hz, hlt]
    show max 1 (min ((⌊normalizePerPage per_page ds⌋ : ℤ) : ℚ) ms) = ms
    rw [hnorm]
    have hfl : ms ≤ ((⌊q⌋ : ℤ) : ℚ) := by
      rw [← hmz]
      have : ⌊ms⌋ ≤ ⌊q⌋ := Int.floor_le_floor (le_of_lt hmq)
      exact_mod_cast this
    rw [min_eq_right hfl]
    exact max_eq_right hm1

/-- C4 witness: the amended theorem applied at concrete inputs (absent
page, fractional page 5/2, absent per_page, and per_page 1000 against
maxPageSize 100). -/
theorem getPaginationLimits_spec_witness :
    (getPaginationLimits none none 10 100).2.2 = 1 ∧
    (getPaginationLimits (Option.some (JsNum.num (5 / 2))) none 10 100).2.2
        = ((⌊(5 : ℚ) / 2⌋ : ℤ) : ℚ) ∧
    (getPaginationLimits none none 10 100).1 = max 1 (min ((⌊(10 : ℚ)⌋ : ℤ) : ℚ) 100) ∧
    (getPaginationLimits none (Option.some (JsNum.num 1000)) 10 100).1 = 100 := by
  refine ⟨?_, ?_, ?_, ?_⟩
  · exact (getPaginationLimits_spec none none 10 100 0 0).1 (by decide)
  · exact (getPaginationLimits_spec (Option.some (JsNum.num (5 / 2))) none 10 100
      (5 / 2) 0).2.1 rfl (by norm_num)
  · exact (getPaginationLimits_spec none none 10 100 0 0).2.2.1 (by decide)
  · exact (getPaginationLimits_spec none (Option.some (JsNum.num 1000)) 10 100
      0 1000).2.2.2.2.1 rfl (by norm_num) (by norm_num) (by norm_num)

/-- C10: in `paginateWithTypeORM` the returned `meta.current_page` is the
normalized page from `getPaginationLimits`, never clamped into
`[1, last_page]`; `meta.from = offset + 1` whenever total > 0; `meta.to =
min(offset + limit, total)`; hence whenever the offset is at least the
(positive) total, the response reports `meta.from > meta.to`. -/
theorem paginateWithTypeORM_meta_spec {α : Type} (page per_page : Option JsNum)
    (ds ms : ℚ) (db : ℚ → ℚ → List α × ℚ) :
    (paginateWithTypeORM page per_page ds ms db).2.current_page
        = (getPaginationLimits page per_page ds ms).2.2 ∧
    (0 < (paginateWithTypeORM page per_page ds ms db).2.total →
      (paginateWithTypeORM page per_page ds ms db).2.from_
        = (getPaginationLimits page per_page ds ms).2.1 + 1) ∧
    (paginateWithTypeORM page per_page ds ms db).2.to_
        = min ((getPaginationLimits page per_page ds ms).2.1
               + (getPaginationLimits page per_page ds ms).1)
              (paginateWithTypeORM page per_page ds ms db).2.total ∧
    ((paginateWithTypeORM page per_page ds ms db).2.total
          ≤ (getPaginationLimits page per_page ds ms).2.1 →
      0 < (paginateWithTypeORM page per_page ds ms db).2.total →
      (paginateWithTypeORM page per_page ds ms db).2.to_
        < (paginateWithTypeORM page per_page ds ms db).2.from_) := by
  refine ⟨rfl, ?_, rfl, ?_⟩
  · intro hpos
    show (if 0 < (db (getPaginationLimits page per_page ds ms).2.1
              (getPaginationLimits page per_page ds ms).1).2
          then (getPaginationLimits page per_page ds ms).2.1 + 1 else 0)
        = (getPaginationLimits page per_page ds ms).2.1 + 1
    exact if_pos hpos
  · intro hle hpos
    have hfrom : (paginateWithTypeORM page per_page ds ms db).2.from_
        = (getPaginationLimits page per_page ds ms).2.1 + 1 := if_pos hpos
    have hto : (paginateWithTypeORM page per_page ds ms db).2.to_
        ≤ (paginateWithTypeORM page per_page ds ms db).2.total := min_le_right _ _
    rw [hfrom]
    calc (paginateWithTypeORM page per_page ds ms db).2.to_
        ≤ (paginateWithTypeORM page per_page ds ms db).2.total := hto
      _ ≤ (getPaginationLimits page per_page ds ms).2.1 := hle
      _ < (getPaginationLimits page per_page ds ms).2.1 + 1 := by linarith

/-- C10 witness: requesting page 5 with per_page 10 against a collection
of total 3 rows yields offset 40 ≥ 3, so `meta.to < meta.from` while
`current_page` stays 5. -/
theorem paginateWithTypeORM_meta_spec_witness :
    (paginateWithTypeORM (Option.some (JsNum.num 5)) (Option.some (JsNum.num 10))
        10 100 (fun _ _ => (([] : List Unit), 3))).2.to_
      < (paginateWithTypeORM (Option.some (JsNum.num 5)) (Option.some (JsNum.num 10))
        10 100 (fun _ _ => (([] : List Unit), 3))).2.from_ := by
  have h := paginateWithTypeORM_meta_spec (Option.some (JsNum.num 5))
    (Option.some (JsNum.num 10)) 10 100 (fun _ _ => (([] : List Unit), 3))
  refine h.2.2.2 ?_ ?_
  · show ((fun (_ _ : ℚ) => (([] : List Unit), (3 : ℚ))) 0 0).2
        ≤ (getPaginationLimits (Option.some (JsNum.num 5))
            (Option.some (JsNum.num 10)) 10 100).2.1
    norm_num [getPaginationLimits, normalizePageRaw, normalizePerPage]
  · norm_num [paginateWithTypeORM]

/-- Helper: every error produced for the filter at position `i` of the
list appears in the output of the `validateFilters` loop started at `j`. -/
theorem mem_validateFiltersFrom (af : List String) (fs : List PaginationFilterDto) :
    ∀ (j i : Nat) (f : PaginationFilterDto), fs[i]? = Option.some f →
      ∀ x ∈ validateFilterAt (j + i) f af, x ∈ validateFiltersFrom af j fs := by
  induction fs with
  | nil =>
      intro j i f h
      simp at h
  | cons g rest ih =>
      intro j i f h x hx
      cases i with
      | zero =>
          simp only [List.getElem?_cons_zero, Option.some.injEq] at h
          subst h
          simp only [Nat.add_zero] at hx
          simp only [validateFiltersFrom, List.mem_append]
          exact Or.inl hx
      | succ k =>
          simp only [List.getElem?_cons_succ] at h
          have hx2 : x ∈ validateFilterAt ((j + 1) + k) f af := by
            have e : j + (k + 1) = (j + 1) + k := by omega
            rw [e] at hx
            exact hx
          simp only [validateFiltersFrom, List.mem_append]
          exact Or.inr (ih (j + 1) k f h x hx2)

/-- C6: a filter whose field is not in the allowed fields but whose
operands satisfy the operator arity gets exactly one error from the
validator, and that error is the positional message naming the filter's
1-based position and its field name; the message appears in the output of
`validateFilters`. -/
theorem validateFilters_disallowed_field (fs : List PaginationFilterDto)
    (af : List String) (i : Nat) (f : PaginationFilterDto)
    (hget : fs[i]? = Option.some f)
    (hfield : af.contains f.search_by = false)
    (harity : arityErrors i f = []) :
    validateFilterAt i f af
      = ["Filter " ++ toString (i + 1) ++ ": \x27" ++ f.search_by ++
         "\x27 is not an allowed search field"] ∧
    ("Filter " ++ toString (i + 1) ++ ": \x27" ++ f.search_by ++
         "\x27 is not an allowed search field") ∈ validateFilters fs af := by
  have h1 : validateFilterAt i f af
      = ["Filter " ++ toString (i + 1) ++ ": \x27" ++ f.search_by ++
         "\x27 is not an allowed search field"] := by
    have hnm : f.search_by ∉ af := by
      simp at hfield
      exact hfield
    simp [validateFilterAt, fieldErrors, hnm, harity]
  refine ⟨h1, ?_⟩
  have h2 := mem_validateFiltersFrom af fs 0 i f hget
  rw [Nat.zero_add, h1] at h2
  exact h2 _ (by simp)

/-- C6 witness: the theorem applied to a one-filter list whose field
`hack` is outside the allow-list `[name]`. -/
theorem validateFilters_disallowed_field_witness :
    validateFilterAt 0 ⟨"hack", "equal", Option.some "x", none, none, none⟩ ["name"]
      = ["Filter " ++ toString (0 + 1) ++ ": \x27hack\x27 is not an allowed search field"] ∧
    ("Filter " ++ toString (0 + 1) ++ ": \x27hack\x27 is not an allowed search field")
      ∈ validateFilters [⟨"hack", "equal", Option.some "x", none, none, none⟩] ["name"] :=
  validateFilters_disallowed_field
    [⟨"hack", "equal", Option.some "x", none, none, none⟩] ["name"] 0
    ⟨"hack", "equal", Option.some "x", none, none, none⟩ rfl (by decide) (by decide)

/-- C3 counterexample: an `equal` filter carrying the extra operand
`values_list` (not required by a single-value operator) passes
`validateFilters` with no error: extra operands are a silent pass, not a
validation error. -/
theorem validateFilters_extra_operand_counter :
    validateFilters
      [⟨"name", "equal", Option.some "x", none, none, Option.some "a,b"⟩] ["name"] = [] ∧
    (⟨"name", "equal", Option.some "x", none, none, Option.some "a,b"⟩
        : PaginationFilterDto).values_list ≠ none := by
  constructor
  · decide
  · simp

/-- C3 (amended): the validator flags missing required operands — a
single-value operator with falsy `search_query`, a range operator missing
a truthy `start_value` or `end_value`, a list operator with falsy
`values_list` — and accepts the filter exactly when the required operands
are present; operand fields beyond the ones required by the operator are
ignored and never produce an error (the equivalences below depend only on
the operands the arity class requires). -/
theorem validateFilters_arity (i : Nat) (f : PaginationFilterDto) :
    (singleValueTypes.contains f.filter_type = true →
       (arityErrors i f = [] ↔ strTruthy f.search_query = true)) ∧
    (rangeTypes.contains f.filter_type = true →
       (arityErrors i f = [] ↔ (strTruthy f.start_value && strTruthy f.end_value) = true)) ∧
    (listValueTypes.contains f.filter_type = true →
       (arityErrors i f = [] ↔ strTruthy f.values_list = true)) ∧
    (nullCheckTypes.contains f.filter_type = true → arityErrors i f = []) := by
  refine ⟨?_, ?_, ?_, ?_⟩
  · intro h
    simp only [arityErrors, h, if_true]
    cases hsq : strTruthy f.search_query <;> simp [hsq]
  · intro h
    have hm := List.mem_of_elem_eq_true h
    simp only [rangeTypes, List.mem_cons, List.not_mem_nil, or_false] at hm
    rcases hm with hft | hft <;>
      · simp only [arityErrors, hft]
        rw [if_neg (by decide), if_pos (by decide)]
        cases hb : strTruthy f.start_value && strTruthy f.end_value <;> simp [hb]
  · intro h
    have hm := List.mem_of_elem_eq_true h
    simp only [listValueTypes, List.mem_cons, List.not_mem_nil, or_false] at hm
    rcases hm with hft | hft | hft <;>
      · simp only [arityErrors, hft]
        rw [if_neg (by decide), if_neg (by decide), if_pos (by decide)]
        cases hb : strTruthy f.values_list <;> simp [hb]
  · intro h
    have hm := List.mem_of_elem_eq_true h
    simp only [nullCheckTypes, List.mem_cons, List.not_mem_nil, or_false] at hm
    rcases hm with hft | hft <;>
      · simp only [arityErrors, hft]
        rw [if_neg (by decide), if_neg (by decide), if_neg (by decide), if_pos (by decide)]

/-- C3 witness: the amended theorem applied to concrete filters: an `in`
filter with absent `values_list` is rejected while a `between` filter with
both bounds (plus an unused extra `search_query` operand) passes. -/
theorem validateFilters_arity_witness :
    arityErrors 0 ⟨"name", "in", none, none, none, none⟩ ≠ [] ∧
    arityErrors 0 ⟨"name", "between", Option.some "zz", Option.some "1",
        Option.some "9", none⟩ = [] := by
  constructor
  · intro he
    have h := ((validateFilters_arity 0 ⟨"name", "in", none, none, none, none⟩).2.2.1
        (by decide)).mp he
    exact absurd h (by decide)
  · exact ((validateFilters_arity 0 ⟨"name", "between", Option.some "zz",
      Option.some "1", Option.some "9", none⟩).2.1 (by decide)).mpr (by decide)

/-- Helper: the exception-threaded validator loop always returns `ok` with
the same errors the pure loop accumulates. -/
theorem validateFiltersFromE_ok (af : List String) (fs : List PaginationFilterDto) :
    ∀ (i : Nat) (errs : List String),
      validateFiltersFromE af i errs fs = Except.ok (errs ++ validateFiltersFrom af i fs) := by
  induction fs with
  | nil =>
      intro i errs
      simp [validateFiltersFromE, validateFiltersFrom]
  | cons f rest ih =>
      intro i errs
      simp [validateFiltersFromE, validateFiltersFrom, Except.bind, ih]

/-- C9: `validateFilters` terminates with an `ok` outcome (never an
exception), returning the list of error messages, and the caller's
`filters` and `allowedFields` arrays are returned exactly as passed —
the validator mutates nothing. -/
theorem validateFilters_total_pure (fs : List PaginationFilterDto) (af : List String) :
    validateFiltersE fs af = Except.ok (validateFilters fs af, fs, af) := by
  unfold validateFiltersE validateFilters
  rw [validateFiltersFromE_ok af fs 0 []]
  simp [Except.map]

/-- C2 counterexample: `values_list = "a,,b"` on an `in` filter binds
`["a", "", "b"]` — the empty entry produced by the double comma is kept,
not dropped, refuting the claimed "drops empty strings". -/
theorem buildSearchQuery_empty_entries_counter :
    (buildSearchQuery (fun _ => none) emptyQB
        ⟨none, none, none,
          Option.some [⟨"name", "in", none, none, none, Option.some "a,,b"⟩]⟩
        ["name"] "entity").1.wheres
      = [("entity.name IN (:...param_0)",
          [("param_0", BindValue.strList ["a", "", "b"])])] := by
  decide

/-- C2 (amended): for every set-membership or array-overlap filter (`in`,
`not_in`, `array_overlap`) on a valid field with a truthy `values_list`,
the compiler splits `values_list` on commas, trims each element, and binds
the resulting ordered sequence unchanged — empty entries included — while
compilation proceeds to the remaining filters; `values_list = "a, b ,c"`
binds `["a", "b", "c"]`. -/
theorem buildSearchQuery_list_split (p : String → Option String)
    (aliasName : String) (af : List String) (i : Nat)
    (acc : QueryBuilder × List String) (rest : List PaginationFilterDto)
    (sb vl : String) (sq sv ev : Option String)
    (hvalid : validFieldName sb af = true) (hvl : vl ≠ "") :
    (buildSearchQueryFrom p aliasName af i acc
        (⟨sb, "in", sq, sv, ev, Option.some vl⟩ :: rest)
      = buildSearchQueryFrom p aliasName af (i + 1)
          (acc.1.andWhere (aliasName ++ "." ++ sb ++ " IN (:..." ++ ("param_" ++ toString i) ++ ")")
            [("param_" ++ toString i, BindValue.strList (jsSplitTrim vl))], acc.2) rest) ∧
    (buildSearchQueryFrom p aliasName af i acc
        (⟨sb, "not_in", sq, sv, ev, Option.some vl⟩ :: rest)
      = buildSearchQueryFrom p aliasName af (i + 1)
          (acc.1.andWhere (aliasName ++ "." ++ sb ++ " NOT IN (:..." ++ ("param_" ++ toString i) ++ ")")
            [("param_" ++ toString i, BindValue.strList (jsSplitTrim vl))], acc.2) rest) ∧
    (buildSearchQueryFrom p aliasName af i acc
        (⟨sb, "array_overlap", sq, sv, ev, Option.some vl⟩ :: rest)
      = buildSearchQueryFrom p aliasName af (i + 1)
          (acc.1.andWhere (aliasName ++ "." ++ sb ++ " && ARRAY[:..." ++ ("param_" ++ toString i) ++ "]")
            [("param_" ++ toString i, BindValue.strList (jsSplitTrim vl))], acc.2) rest) ∧
    jsSplitTrim ("a, b ,c") = ["a", "b", "c"] := by
  refine ⟨?_, ?_, ?_, by decide⟩ <;>
    simp [buildSearchQueryFrom, applyFilter, hvalid, strTruthy, hvl, jsTemplate]

/-- C5 counterexample: `sort_order = "Desc"` on a valid sort field yields
ascending order: the source accepts only the verbatim spellings
`asc`, `desc`, `ASC`, `DESC`, so the claimed "any casing of desc yields
descending" fails for the mixed casing `Desc`. -/
theorem buildSortQuery_mixed_case_counter :
    (buildSortQuery emptyQB ⟨none, Option.some "name", Option.some "Desc", none⟩
        ["name"] "entity").order_by = Option.some ("entity.name", "ASC") := by
  decide

/-- C5 (amended): when the sort field is present and passes the guard
(non-empty, non-blank, not a sentinel token, member of the allowed sort
fields) the compiler orders by that field with the normalized order;
the order is normalized by verbatim membership in
`{asc, desc, ASC, DESC}` — upper-cased on match, ascending otherwise
(mixed casings such as `Desc` count as invalid) — and defaults to
ascending when absent; any sort field failing the guard falls back to
`created_at` descending without raising. -/
theorem buildSortQuery_spec (qb : QueryBuilder) (query : QueryRequestBodyDto)
    (allowed : List String) (aliasName : String) (s o : String) :
    (query.sort_by = Option.some s → validFieldName s allowed = true →
        (buildSortQuery qb query allowed aliasName).order_by
          = Option.some (aliasName ++ "." ++ s, resolveSortOrder query.sort_order)) ∧
    (query.sort_by = Option.some s → validFieldName s allowed = false →
        (buildSortQuery qb query allowed aliasName).order_by
          = Option.some (aliasName ++ ".created_at", "DESC")) ∧
    (query.sort_by = none →
        (buildSortQuery qb query allowed aliasName).order_by
          = Option.some (aliasName ++ ".created_at", "DESC")) ∧
    (validSortOrders.contains o = true → resolveSortOrder (Option.some o) = jsToUpper o) ∧
    (validSortOrders.contains o = false → resolveSortOrder (Option.some o) = "ASC") ∧
    resolveSortOrder none = "ASC" := by
  refine ⟨?_, ?_, ?_, ?_, ?_, rfl⟩
  · intro h1 h2
    simp [buildSortQuery, h1, h2]
  · intro h1 h2
    simp [buildSortQuery, h1, h2]
  · intro h1
    simp [buildSortQuery, h1]
  · intro h
    have hm := List.mem_of_elem_eq_true h
    simp only [validSortOrders, List.mem_cons, List.not_mem_nil, or_false] at hm
    rcases hm with rfl | rfl | rfl | rfl <;> decide
  · intro h
    have hnm : o ∉ validSortOrders := by
      simp at h
      exact h
    simp [resolveSortOrder, hnm]

/-- C5 witness: the amended theorem applied at a valid field with order
`desc`, at the disallowed field `unknownField`, and at the order token
`desc`. -/
theorem buildSortQuery_spec_witness :
    (buildSortQuery emptyQB ⟨none, Option.some "name", Option.some "desc", none⟩
        ["name"] "entity").order_by
      = Option.some ("entity" ++ "." ++ "name", resolveSortOrder (Option.some "desc")) ∧
    (buildSortQuery emptyQB ⟨none, Option.some "unknownField", Option.some "desc", none⟩
        ["name"] "entity").order_by
      = Option.some ("entity" ++ ".created_at", "DESC") ∧
    resolveSortOrder (Option.some "desc") = jsToUpper "desc" := by
  refine ⟨?_, ?_, ?_⟩
  · exact (buildSortQuery_spec emptyQB
      ⟨none, Option.some "name", Option.some "desc", none⟩ ["name"] "entity"
      "name" "x").1 rfl (by decide)
  · exact (buildSortQuery_spec emptyQB
      ⟨none, Option.some "unknownField", Option.some "desc", none⟩ ["name"] "entity"
      "unknownField" "x").2.1 rfl (by decide)
  · exact (buildSortQuery_spec emptyQB
      ⟨none, none, none, none⟩ ["name"] "entity" "x" "desc").2.2.2.1 (by decide)

/-- C7: a `json_contains`/`json_contained` filter on a valid field whose
value fails to parse as JSON adds no predicate (the builder component of
the accumulator is unchanged), appends the `Invalid JSON` diagnostic, and
compilation continues with the remaining filters at the next parameter
index — the loop never raises. -/
theorem buildSearchQuery_json_parse_failure (p : String → Option String)
    (aliasName : String) (af : List String) (i : Nat)
    (acc : QueryBuilder × List String) (f : PaginationFilterDto)
    (rest : List PaginationFilterDto)
    (hft : f.filter_type = "json_contains" ∨ f.filter_type = "json_contained")
    (hvalid : validFieldName f.search_by af = true)
    (hparse : p (jsOrElse f.search_query ("\x7b\x7d")) = none) :
    buildSearchQueryFrom p aliasName af i acc (f :: rest)
      = buildSearchQueryFrom p aliasName af (i + 1)
          (acc.1, acc.2 ++ ["Invalid JSON in filter: " ++ jsTemplate f.search_query])
          rest := by
  obtain ⟨sb, ft, sq, sv, ev, vl⟩ := f
  simp only at hft hvalid hparse
  rcases hft with rfl | rfl <;>
    simp [buildSearchQueryFrom, applyFilter, hvalid, hparse]

/-- C7 witness: the theorem applied to a one-filter request whose
`json_contains` payload `notjson` is rejected by the parser: no where
clause is added and the diagnostic is surfaced. -/
theorem buildSearchQuery_json_parse_failure_witness :
    (buildSearchQuery (fun _ => none) emptyQB
        ⟨none, none, none,
          Option.some [⟨"name", "json_contains", Option.some "notjson", none, none, none⟩]⟩
        ["name"] "entity").1.wheres = [] ∧
    (buildSearchQuery (fun _ => none) emptyQB
        ⟨none, none, none,
          Option.some [⟨"name", "json_contains", Option.some "notjson", none, none, none⟩]⟩
        ["name"] "entity").2 = ["Invalid JSON in filter: notjson"] := by
  have h := buildSearchQuery_json_parse_failure (fun _ => none) "entity" ["name"] 0
    (emptyQB, []) ⟨"name", "json_contains", Option.some "notjson", none, none, none⟩ []
    (Or.inl rfl) (by decide) rfl
  constructor
  · show (buildSearchQueryFrom (fun _ => none) "entity" ["name"] 0 (emptyQB, [])
        [⟨"name", "json_contains", Option.some "notjson", none, none, none⟩]).1.wheres = []
    rw [h]
    decide
  · show (buildSearchQueryFrom (fun _ => none) "entity" ["name"] 0 (emptyQB, [])
        [⟨"name", "json_contains", Option.some "notjson", none, none, none⟩]).2
      = ["Invalid JSON in filter: notjson"]
    rw [h]
    decide

/-- C8: a `json_extract`/`json_extract_text` filter on a valid field makes
the compiler surface the explicit `not fully implemented` diagnostic and
add no predicate, while compilation continues — never a silent no-op —
and such a filter passes the validator whenever its field is allowed and
`search_query` is truthy (it sits in the single-value arity group). -/
theorem buildSearchQuery_json_extract_diag (p : String → Option String)
    (aliasName : String) (af : List String) (i : Nat)
    (acc : QueryBuilder × List String) (f : PaginationFilterDto)
    (rest : List PaginationFilterDto)
    (hft : f.filter_type = "json_extract" ∨ f.filter_type = "json_extract_text")
    (hvalid : validFieldName f.search_by af = true) :
    (buildSearchQueryFrom p aliasName af i acc (f :: rest)
      = buildSearchQueryFrom p aliasName af (i + 1)
          (acc.1, acc.2 ++ ["JSON path extraction (" ++ f.filter_type ++
            ") not fully implemented. Needs database-specific handling."]) rest) ∧
    (af.contains f.search_by = true → strTruthy f.search_query = true →
      validateFilterAt i f af = []) := by
  have hsv1 : singleValueTypes.contains ("json_extract") = true := by decide
  have hsv2 : singleValueTypes.contains ("json_extract_text") = true := by decide
  obtain ⟨sb, ft, sq, sv, ev, vl⟩ := f
  simp only at hft hvalid
  have hm1 : ("json_extract" : String) ∈ singleValueTypes := by decide
  have hm2 : ("json_extract_text" : String) ∈ singleValueTypes := by decide
  rcases hft with rfl | rfl <;> constructor
  · simp [buildSearchQueryFrom, applyFilter, hvalid]
  · intro h1 h2
    simp only at h1 h2
    have hmem : sb ∈ af := by
      simpa using h1
    simp [validateFilterAt, fieldErrors, arityErrors, hmem, h2, hsv1, hm1]
  · simp [buildSearchQueryFrom, applyFilter, hvalid]
  · intro h1 h2
    simp only at h1 h2
    have hmem : sb ∈ af := by
      simpa using h1
    simp [validateFilterAt, fieldErrors, arityErrors, hmem, h2, hsv2, hm2]

/-- C8 witness: the theorem applied to a one-filter request using
`json_extract` on the allowed field `name`. -/
theorem buildSearchQuery_json_extract_diag_witness :
    (buildSearchQuery (fun _ => none) emptyQB
        ⟨none, none, none,
          Option.some [⟨"name", "json_extract", Option.some "x", none, none, none⟩]⟩
        ["name"] "entity").1.wheres = [] ∧
    (buildSearchQuery (fun _ => none) emptyQB
        ⟨none, none, none,
          Option.some [⟨"name", "json_extract", Option.some "x", none, none, none⟩]⟩
        ["name"] "entity").2
      = ["JSON path extraction (json_extract) not fully implemented. Needs database-specific handling."] ∧
    validateFilterAt 0 ⟨"name", "json_extract", Option.some "x", none, none, none⟩ ["name"]
      = [] := by
  have h := buildSearchQuery_json_extract_diag (fun _ => none) "entity" ["name"] 0
    (emptyQB, []) ⟨"name", "json_extract", Option.some "x", none, none, none⟩ []
    (Or.inl rfl) (by decide)
  refine ⟨?_, ?_, h.2 (by decide) (by decide)⟩
  · show (buildSearchQueryFrom (fun _ => none) "entity" ["name"] 0 (emptyQB, [])
        [⟨"name", "json_extract", Option.some "x", none, none, none⟩]).1.wheres = []
    rw [h.1]
    decide
  · show (buildSearchQueryFrom (fun _ => none) "entity" ["name"] 0 (emptyQB, [])
        [⟨"name", "json_extract", Option.some "x", none, none, none⟩]).2
      = ["JSON path extraction (json_extract) not fully implemented. Needs database-specific handling."]
    rw [h.1]
    decide

/-- C2 witness: the amended theorem applied at `values_list = "a, b ,c"`
on the allowed field `name`. -/
theorem buildSearchQuery_list_split_witness :
    buildSearchQueryFrom (fun _ => none) "entity" ["name"] 0 (emptyQB, [])
        [⟨"name", "in", none, none, none, Option.some "a, b ,c"⟩]
      = buildSearchQueryFrom (fun _ => none) "entity" ["name"] (0 + 1)
          ((emptyQB, ([] : List String)).1.andWhere
            ("entity" ++ "." ++ "name" ++ " IN (:..." ++ ("param_" ++ toString 0) ++ ")")
            [("param_" ++ toString 0, BindValue.strList (jsSplitTrim "a, b ,c"))],
           (emptyQB, ([] : List String)).2) [] ∧
    jsSplitTrim ("a, b ,c") = ["a", "b", "c"] := by
  have h := buildSearchQuery_list_split (fun _ => none) "entity" ["name"] 0 (emptyQB, [])
    [] "name" "a, b ,c" none none none (by decide) (by decide)
  exact ⟨h.1, h.2.2.2⟩
